import Mathlib

/-!
Verification of the cranio sensor/producer/process subsystem and of the
database layer in `cranio/database.py`.

The repository sources provided contain `cranio/database.py` and the test
modules.  The modules `cranio/core.py` and `cranio/producer.py` (which hold
`Packet`, `ChannelInfo`, `Sensor`, `Producer` and `ProducerProcess`) are not
among the sources; only their tests and the specification describe them, so
those components are modelled from the spec below.  The database layer is
embedded from the source.
-/

namespace Cranio

/-- Modelled from the spec: `ChannelInfo` (from the missing `cranio/producer.py`)
is an immutable value of a channel name and a unit. -/
structure ChannelInfo where
  name : String
  unit : String
deriving DecidableEq, Repr

/-- Modelled from the spec: `display()` returns the string
`name`, a space, and the unit in parentheses; this string is the column key. -/
def ChannelInfo.display (c : ChannelInfo) : String :=
  c.name ++ " (" ++ c.unit ++ ")"

/-- Modelled from the spec: a `Packet` (from the missing `cranio/core.py`) is one
sampled row: a timestamp plus a mapping from channel key to numeric value. -/
structure Packet where
  timestamp : Nat
  values : List (String × Int)
deriving DecidableEq, Repr

/-- Modelled from the spec: a Packet projects to exactly one tabular row whose
columns are the channel keys present in `values`. -/
def Packet.as_dataframe (p : Packet) : List (String × Int) :=
  p.values

/-- Columns of the one-row tabular projection. -/
def dfColumns (df : List (String × Int)) : List String :=
  df.map Prod.fst

/-- Emptiness of the one-row tabular projection: a dataframe with no columns
holds no data. -/
def dfEmpty (df : List (String × Int)) : Bool :=
  df.isEmpty

/-- Modelled from the spec: a `Sensor` (from the missing `cranio/producer.py`)
owns an ordered collection of `ChannelInfo` and a pluggable value-generation
strategy; the generator is indexed by invocation count so that each channel of
a tick gets one invocation. -/
structure Sensor where
  channels : List ChannelInfo
  gen : Nat → Int

/-- Modelled from the spec: the default `self_test` implementation always
succeeds. -/
def Sensor.self_test (_ : Sensor) : Bool :=
  true

/-- Modelled from the spec: `read()` returns "no data" (absent) when the sensor
has zero channels; otherwise it invokes the value generator once per channel,
in order, and assembles one Packet timestamped at the moment of the call. -/
def Sensor.read (s : Sensor) (t : Nat) : Option Packet :=
  if s.channels.isEmpty then none
  else some ⟨t, s.channels.enum.map (fun ic => (ic.2.display, s.gen ic.1))⟩

/-- C3: a Sensor with zero channels passes its self test and every `read`
returns "no data" (absent), never an empty Packet. -/
theorem sensor_zero_channels_no_data (s : Sensor) (t : Nat)
    (h : s.channels = []) : s.self_test = true ∧ s.read t = none := by
  constructor
  · rfl
  · simp [Sensor.read, h]

/-- Witness for C3 at a concrete zero-channel sensor. -/
theorem sensor_zero_channels_no_data_witness :
    Sensor.self_test ⟨[], fun _ => 0⟩ = true ∧
      Sensor.read ⟨[], fun _ => 0⟩ 0 = none :=
  sensor_zero_channels_no_data ⟨[], fun _ => 0⟩ 0 rfl

/-- C4: a Sensor holding exactly one channel `c` reads a Packet whose tabular
projection is non-empty and has exactly one column, keyed by the display string
of `c`. -/
theorem sensor_one_channel_one_column (s : Sensor) (t : Nat) (c : ChannelInfo)
    (h : s.channels = [c]) :
    ∃ p : Packet, s.read t = some p ∧
      dfColumns p.as_dataframe = [c.display] ∧
      dfEmpty p.as_dataframe = false := by
  refine ⟨⟨t, [(c.display, s.gen 0)]⟩, ?_, rfl, rfl⟩
  simp [Sensor.read, h, List.enum]

/-- Witness for C4 at a concrete one-channel sensor. -/
theorem sensor_one_channel_one_column_witness :
    ∃ p : Packet,
      Sensor.read ⟨[⟨"torque", "Nm"⟩], fun _ => 7⟩ 3 = some p ∧
        dfColumns p.as_dataframe = [ChannelInfo.display ⟨"torque", "Nm"⟩] ∧
        dfEmpty p.as_dataframe = false :=
  sensor_one_channel_one_column ⟨[⟨"torque", "Nm"⟩], fun _ => 7⟩ 3 ⟨"torque", "Nm"⟩ rfl

/-- C5: the display form of a `ChannelInfo` built from a name and a unit is the
name followed by the unit in parentheses; concretely, torque in Nm displays as
the string of the test `test_channel_info`. -/
theorem channel_info_display :
    (∀ n u : String, ChannelInfo.display ⟨n, u⟩ = n ++ " (" ++ u ++ ")") ∧
      ChannelInfo.display ⟨"torque", "Nm"⟩ = "torque (Nm)" := by
  exact ⟨fun n u => rfl, rfl⟩

/-- Modelled from the spec: a Producer (from the missing `cranio/producer.py`)
owns a set of sensors keyed by identity; sensor identities are modelled as
natural numbers and the set as the insertion-ordered duplicate-free list. -/
abbrev Producer : Type :=
  List Nat

/-- Modelled from the spec: `add_sensor` is a no-op when the sensor is already
a member, and appends it otherwise. -/
def add_sensor (p : Producer) (s : Nat) : Producer :=
  if s ∈ p then p else p ++ [s]

/-- Modelled from the spec: `remove_sensor` removes the sensor when present and
is a no-op when absent. -/
def remove_sensor (p : Producer) (s : Nat) : Producer :=
  List.erase p s

/-- One call in a sequence of sensor-set mutations. -/
inductive SensorOp where
  | add (s : Nat)
  | remove (s : Nat)
deriving DecidableEq, Repr

/-- Apply one mutation to a producer. -/
def applyOp (p : Producer) : SensorOp → Producer
  | .add s => add_sensor p s
  | .remove s => remove_sensor p s

/-- Apply a whole sequence of mutations. -/
def applyOps (p : Producer) (ops : List SensorOp) : Producer :=
  ops.foldl applyOp p

/-- Mathematical "net adds" semantics of one mutation on a finite set. -/
def netStep (st : Finset Nat) : SensorOp → Finset Nat
  | .add s => insert s st
  | .remove s => st.erase s

/-- Mathematical "net adds" semantics of a mutation sequence. -/
def netSet (st : Finset Nat) (ops : List SensorOp) : Finset Nat :=
  ops.foldl netStep st

theorem add_sensor_toFinset (p : Producer) (s : Nat) :
    (add_sensor p s).toFinset = insert s p.toFinset := by
  unfold add_sensor
  by_cases h : s ∈ p
  · simp [h, List.mem_toFinset.mpr h, Finset.insert_eq_self.mpr]
  · simp [h, List.toFinset_append]
    ext a
    simp [or_comm]

theorem add_sensor_nodup (p : Producer) (s : Nat) (h : p.Nodup) :
    (add_sensor p s).Nodup := by
  unfold add_sensor
  by_cases hm : s ∈ p
  · simpa [hm]
  · simp only [hm, if_false]
    refine List.Nodup.append h (List.nodup_singleton s) ?_
    intro a ha hb
    have hb2 : a = s := by simpa using hb
    exact hm (hb2 ▸ ha)

theorem remove_sensor_toFinset (p : Producer) (s : Nat) (h : p.Nodup) :
    (remove_sensor p s).toFinset = p.toFinset.erase s := by
  ext a
  simp [remove_sensor, List.mem_toFinset, Finset.mem_erase, h.mem_erase_iff]

theorem applyOps_nodup_toFinset (ops : List SensorOp) :
    ∀ p : Producer, p.Nodup →
      (applyOps p ops).Nodup ∧
        (applyOps p ops).toFinset = netSet p.toFinset ops := by
  induction ops with
  | nil => intro p hp; exact ⟨hp, rfl⟩
  | cons op ops ih =>
    intro p hp
    have hstep : (applyOp p op).Nodup ∧
        (applyOp p op).toFinset = netStep p.toFinset op := by
      cases op with
      | add s => exact ⟨add_sensor_nodup p s hp, add_sensor_toFinset p s⟩
      | remove s =>
        exact ⟨List.Nodup.erase s hp, remove_sensor_toFinset p s hp⟩
    have := ih (applyOp p op) hstep.1
    refine ⟨this.1, ?_⟩
    have h2 := this.2
    simpa [applyOps, netSet, hstep.2] using h2

theorem add_all_distinct (l : List Nat) :
    ∀ p : Producer, (∀ s ∈ l, s ∉ p) → l.Nodup →
      List.foldl add_sensor p l = p ++ l := by
  induction l with
  | nil => intro p _ _; simp
  | cons a t ih =>
    intro p hdisj hnd
    have ha : a ∉ p := hdisj a (List.mem_cons_self a t)
    have step : add_sensor p a = p ++ [a] := by simp [add_sensor, ha]
    have hdisj2 : ∀ s ∈ t, s ∉ p ++ [a] := by
      intro s hs
      simp only [List.mem_append, List.mem_singleton]
      rintro (h | h)
      · exact hdisj s (List.mem_cons_of_mem a hs) h
      · exact (List.nodup_cons.mp hnd).1 (h ▸ hs)
    have := ih (p ++ [a]) hdisj2 (List.nodup_cons.mp hnd).2
    simp only [List.foldl_cons, step, this, List.append_assoc, List.singleton_append]

theorem remove_all_self (l : List Nat) :
    List.foldl remove_sensor l l = [] := by
  induction l with
  | nil => rfl
  | cons a t ih =>
    have : remove_sensor (a :: t) a = t := by simp [remove_sensor]
    calc List.foldl remove_sensor (a :: t) (a :: t)
        = List.foldl remove_sensor t t := by rw [List.foldl_cons, this]
      _ = [] := ih

/-- C2: set semantics of the producer sensor collection.  Adding a present
sensor and removing an absent sensor are no-ops; any mutation sequence keeps
the collection duplicate-free (a sensor is a member at most once) and its size
equal to the cardinality of the net-adds set; adding `n` distinct sensors to an
empty producer yields size `n` and then removing all of them yields size 0. -/
theorem producer_sensor_set_semantics (sensors : List Nat) (h : sensors.Nodup) :
    (∀ (p : Producer) (s : Nat), s ∈ p → add_sensor p s = p) ∧
      (∀ (p : Producer) (s : Nat), s ∉ p → remove_sensor p s = p) ∧
      (∀ ops : List SensorOp, (applyOps [] ops).Nodup ∧
        (applyOps [] ops).length = (netSet ∅ ops).card) ∧
      (List.foldl add_sensor [] sensors).length = sensors.length ∧
      (List.foldl remove_sensor (List.foldl add_sensor [] sensors) sensors).length = 0 := by
  refine ⟨?_, ?_, ?_, ?_, ?_⟩
  · intro p s hs; simp [add_sensor, hs]
  · intro p s hs; simp [remove_sensor, List.erase_of_not_mem hs]
  · intro ops
    have := applyOps_nodup_toFinset ops [] List.nodup_nil
    refine ⟨this.1, ?_⟩
    have hcard := congrArg Finset.card this.2
    rwa [List.toFinset_card_of_nodup this.1] at hcard
  · rw [add_all_distinct sensors [] (by simp) h]
    simp
  · rw [add_all_distinct sensors [] (by simp) h]
    simpa using congrArg List.length (remove_all_self sensors)

/-- Witness for C2 at three distinct sensors, as in the repository test. -/
theorem producer_sensor_set_semantics_witness :
    ([0, 1, 2] : List Nat).Nodup ∧
      (List.foldl add_sensor [] [0, 1, 2]).length = 3 ∧
      (List.foldl remove_sensor (List.foldl add_sensor [] [0, 1, 2]) [0, 1, 2]).length = 0 := by
  have h : ([0, 1, 2] : List Nat).Nodup := by decide
  have := producer_sensor_set_semantics [0, 1, 2] h
  exact ⟨h, this.2.2.2.1, this.2.2.2.2⟩

/-- Modelled from the spec: lifecycle states of a `ProducerProcess`
(from the missing `cranio/producer.py`). -/
inductive Life where
  | NEW
  | RUNNING
  | PAUSED
  | STOPPED
deriving DecidableEq, Repr

/-- Lifecycle-misuse error raised synchronously at the call site. -/
inductive PErr where
  | invalidState
deriving DecidableEq, Repr

/-- Modelled from the spec: the observable state of a `ProducerProcess`: its
lifecycle state, the number of execution contexts spawned so far, a clock used
to timestamp sampling ticks, and the rows pushed to the Store so far. -/
structure PState where
  life : Life
  spawns : Nat
  clock : Nat
  store : List Packet
deriving DecidableEq, Repr

/-- State of a freshly constructed process: NEW, nothing spawned, empty store. -/
def PState.initial : PState :=
  ⟨.NEW, 0, 0, []⟩

/-- Modelled from the spec: `is_alive()` is true in RUNNING and PAUSED, false
in NEW and STOPPED. -/
def is_alive (s : PState) : Bool :=
  match s.life with
  | .RUNNING => true
  | .PAUSED => true
  | .NEW => false
  | .STOPPED => false

/-- Modelled from the spec: `start()` spawns the isolated execution context
from NEW, resumes the same loop from PAUSED without re-spawning, is a no-op
from RUNNING, and is not permitted from the terminal STOPPED state. -/
def PState.start (s : PState) : Except PErr PState :=
  match s.life with
  | .NEW => .ok { s with life := .RUNNING, spawns := s.spawns + 1 }
  | .PAUSED => .ok { s with life := .RUNNING }
  | .RUNNING => .ok s
  | .STOPPED => .error .invalidState

/-- Modelled from the spec: `pause()` signals a RUNNING loop to stop issuing
ticks while keeping the context alive, and is a no-op from PAUSED (the spec
leaves NEW and STOPPED unspecified; modelled as no-ops). -/
def PState.pause (s : PState) : PState :=
  match s.life with
  | .RUNNING => { s with life := .PAUSED }
  | _ => s

/-- Modelled from the spec: `join()` terminates an alive loop and blocks until
the context exits; from NEW it fails with an `InvalidStateError` (nothing to
join); STOPPED is terminal so joining again is modelled as a no-op. -/
def PState.join (s : PState) : Except PErr PState :=
  match s.life with
  | .NEW => .error .invalidState
  | .STOPPED => .ok s
  | _ => .ok { s with life := .STOPPED }

/-- C1: `is_alive` is true exactly in RUNNING and PAUSED; starting from NEW
makes the process alive; it stays alive across a pause and a subsequent start,
and that start resumes from PAUSED without re-spawning or losing the
accumulated store; after a successful `join` it is not alive. -/
theorem producer_process_alive_lifecycle :
    (∀ s : PState, is_alive s = true ↔ (s.life = .RUNNING ∨ s.life = .PAUSED)) ∧
      (∀ s t : PState, s.life = .NEW → s.start = .ok t → is_alive t = true) ∧
      (∀ s : PState, s.life = .RUNNING → is_alive s.pause = true) ∧
      (∀ s t : PState, s.life = .PAUSED → s.start = .ok t →
        is_alive t = true ∧ t.spawns = s.spawns ∧ t.store = s.store) ∧
      (∀ s t : PState, s.join = .ok t → is_alive t = false) := by
  refine ⟨?_, ?_, ?_, ?_, ?_⟩
  · intro s
    cases h : s.life <;> simp [is_alive, h]
  · intro s t hn hs
    rw [PState.start, hn] at hs
    cases hs
    rfl
  · intro s hr
    obtain ⟨l, sp, ck, st⟩ := s
    cases hr
    rfl
  · intro s t hp hs
    rw [PState.start, hp] at hs
    cases hs
    exact ⟨rfl, rfl, rfl⟩
  · intro s t hj
    obtain ⟨l, sp, ck, st⟩ := s
    cases l <;> simp [PState.join] at hj <;> rw [← hj] <;> rfl

/-- Witness for C1 at the test scenario: start from the initial state, pause,
start again, join. -/
theorem producer_process_alive_lifecycle_witness :
    is_alive ⟨.RUNNING, 1, 0, []⟩ = true ∧
      is_alive (PState.pause ⟨.RUNNING, 1, 0, []⟩) = true ∧
      is_alive ⟨.STOPPED, 1, 5, []⟩ = false := by
  refine ⟨?_, ?_, ?_⟩
  · exact producer_process_alive_lifecycle.2.1 PState.initial ⟨.RUNNING, 1, 0, []⟩ rfl rfl
  · exact producer_process_alive_lifecycle.2.2.1 ⟨.RUNNING, 1, 0, []⟩ rfl
  · exact producer_process_alive_lifecycle.2.2.2.2 ⟨.PAUSED, 1, 5, []⟩ ⟨.STOPPED, 1, 5, []⟩ rfl

/-- C7: `join()` on a process in state NEW fails synchronously with an
`InvalidStateError`. -/
theorem join_from_new_invalid_state (s : PState) (h : s.life = .NEW) :
    s.join = .error .invalidState := by
  rw [PState.join, h]

/-- Witness for C7 at the freshly constructed process. -/
theorem join_from_new_invalid_state_witness :
    PState.initial.life = .NEW ∧
      PState.initial.join = .error .invalidState :=
  ⟨rfl, join_from_new_invalid_state PState.initial rfl⟩

/-- C8: `pause` is idempotent (two calls in a row have the effect of one), and
`start` from RUNNING is a no-op, so two `start` calls while RUNNING have the
effect of one. -/
theorem pause_start_idempotent (s : PState) (h : s.life = .RUNNING) :
    (∀ u : PState, u.pause.pause = u.pause) ∧
      s.start = .ok s ∧ (s.start >>= PState.start) = s.start := by
  refine ⟨?_, ?_, ?_⟩
  · intro u
    obtain ⟨l, sp, ck, st⟩ := u
    cases l <;> rfl
  · rw [PState.start, h]
  · rw [PState.start, h]
    show s.start = .ok s
    rw [PState.start, h]

/-- Witness for C8 at a concrete RUNNING state. -/
theorem pause_start_idempotent_witness :
    PState.pause (PState.pause ⟨.RUNNING, 1, 2, []⟩) = PState.pause ⟨.RUNNING, 1, 2, []⟩ ∧
      (PState.start ⟨.RUNNING, 1, 2, []⟩ >>= PState.start) = PState.start ⟨.RUNNING, 1, 2, []⟩ := by
  have h := pause_start_idempotent ⟨.RUNNING, 1, 2, []⟩ rfl
  exact ⟨h.1 ⟨.RUNNING, 1, 2, []⟩, h.2.2⟩

/-- Modelled from the spec: one sampling tick of the loop body. While RUNNING
the loop calls `producer.read()` at the current clock instant and, if it yields
a row, pushes it to the Store; in every state the clock (wall time) advances. -/
def tick (producerRead : Nat → Option (List (String × Int))) (s : PState) : PState :=
  match s.life with
  | .RUNNING =>
    match producerRead s.clock with
    | some row =>
      { s with clock := s.clock + 1, store := s.store ++ [⟨s.clock, row⟩] }
    | none => { s with clock := s.clock + 1 }
  | _ => { s with clock := s.clock + 1 }

/-- Events observable on a producer process: sampling ticks interleaved with
control calls from the controller. -/
inductive Ev where
  | tick
  | start
  | pause
  | join
deriving DecidableEq, Repr

/-- Modelled from the spec: one event step; a control call that raises leaves
the process state unchanged. -/
def stepEv (producerRead : Nat → Option (List (String × Int)))
    (s : PState) : Ev → PState
  | .tick => tick producerRead s
  | .start =>
    match s.start with
    | .ok t => t
    | .error _ => s
  | .pause => s.pause
  | .join =>
    match s.join with
    | .ok t => t
    | .error _ => s

/-- Run a whole event trace. -/
def run (producerRead : Nat → Option (List (String × Int)))
    (s : PState) (evs : List Ev) : PState :=
  evs.foldl (stepEv producerRead) s

/-- Store sanity invariant: enqueued timestamps are strictly increasing and all
lie below the clock. -/
def storeInv (s : PState) : Prop :=
  (s.store.map Packet.timestamp).Pairwise (· < ·) ∧
    ∀ p ∈ s.store, p.timestamp < s.clock

theorem storeInv_initial : storeInv PState.initial := by
  constructor
  · exact List.Pairwise.nil
  · intro p hp
    cases hp

theorem stepEv_store (producerRead : Nat → Option (List (String × Int)))
    (s : PState) (ev : Ev) (h : storeInv s) :
    storeInv (stepEv producerRead s ev) ∧
      s.store <+: (stepEv producerRead s ev).store := by
  obtain ⟨l, sp, ck, st⟩ := s
  obtain ⟨hord, hlt⟩ := h
  cases ev with
  | tick =>
    cases l with
    | RUNNING =>
      simp only [stepEv, tick]
      cases hr : producerRead ck with
      | some row =>
        simp only [hr]
        refine ⟨⟨?_, ?_⟩, ⟨[⟨ck, row⟩], rfl⟩⟩
        · rw [List.map_append]
          rw [List.pairwise_append]
          refine ⟨hord, List.pairwise_singleton _ _, ?_⟩
          intro a ha b hb
          simp only [List.map_cons, List.map_nil, List.mem_singleton] at hb
          subst hb
          obtain ⟨p, hp, hpa⟩ := List.mem_map.mp ha
          exact hpa ▸ hlt p hp
        · intro p hp
          rcases List.mem_append.mp hp with hp1 | hp2
          · exact Nat.lt_succ_of_lt (hlt p hp1)
          · have : p = ⟨ck, row⟩ := by simpa using hp2
            subst this
            exact Nat.lt_succ_self ck
      | none =>
        simp only [hr]
        exact ⟨⟨hord, fun p hp => Nat.lt_succ_of_lt (hlt p hp)⟩, List.prefix_rfl⟩
    | NEW =>
      exact ⟨⟨hord, fun p hp => Nat.lt_succ_of_lt (hlt p hp)⟩, List.prefix_rfl⟩
    | PAUSED =>
      exact ⟨⟨hord, fun p hp => Nat.lt_succ_of_lt (hlt p hp)⟩, List.prefix_rfl⟩
    | STOPPED =>
      exact ⟨⟨hord, fun p hp => Nat.lt_succ_of_lt (hlt p hp)⟩, List.prefix_rfl⟩
  | start =>
    cases l <;> exact ⟨⟨hord, hlt⟩, List.prefix_rfl⟩
  | pause =>
    cases l <;> exact ⟨⟨hord, hlt⟩, List.prefix_rfl⟩
  | join =>
    cases l <;> exact ⟨⟨hord, hlt⟩, List.prefix_rfl⟩

theorem run_store (producerRead : Nat → Option (List (String × Int)))
    (evs : List Ev) :
    ∀ s : PState, storeInv s →
      storeInv (run producerRead s evs) ∧
        s.store <+: (run producerRead s evs).store := by
  induction evs with
  | nil => intro s hs; exact ⟨hs, List.prefix_rfl⟩
  | cons ev evs ih =>
    intro s hs
    have h1 := stepEv_store producerRead s ev hs
    have h2 := ih (stepEv producerRead s ev) h1.1
    exact ⟨h2.1, h1.2.trans h2.2⟩

/-- C6: along any event trace from the initial state, rows reach the Store in
sampling order with strictly increasing (hence monotonically non-decreasing)
timestamps and no duplicate row; and after any further events (including any
pattern of pause and resume) the previously pushed store contents persist
unchanged as a prefix of the later store contents (no drop, no reorder, no
replay). -/
theorem store_order_and_persistence
    (producerRead : Nat → Option (List (String × Int)))
    (evs more : List Ev) :
    ((run producerRead PState.initial (evs ++ more)).store.map Packet.timestamp).Pairwise (· < ·) ∧
      (run producerRead PState.initial (evs ++ more)).store.Nodup ∧
      (run producerRead PState.initial evs).store <+:
        (run producerRead PState.initial (evs ++ more)).store := by
  have h1 := run_store producerRead (evs ++ more) PState.initial storeInv_initial
  have h2 := run_store producerRead evs PState.initial storeInv_initial
  have h3 := run_store producerRead more (run producerRead PState.initial evs) h2.1
  have happ : run producerRead PState.initial (evs ++ more) =
      run producerRead (run producerRead PState.initial evs) more := by
    simp [run, List.foldl_append]
  refine ⟨h1.1.1, ?_, ?_⟩
  · have hts := h1.1.1
    have : ((run producerRead PState.initial (evs ++ more)).store.map Packet.timestamp).Nodup :=
      hts.imp (fun hab => Nat.ne_of_lt hab)
    exact this.of_map Packet.timestamp
  · rw [happ]
    exact h3.2

/-! Database layer, embedded from `cranio/database.py`. -/

/-- Outcome record of one `session_scope` use: the value or re-raised
exception, the resulting database contents, and whether the SQL session was
committed, rolled back and closed. -/
structure ScopeResult (ε ρ : Type) where
  result : Except ε Unit
  db : List ρ
  committed : Bool
  rolledBack : Bool
  closed : Bool
deriving Repr

/-- Embedded from `session_scope` in `cranio/database.py`: the body runs with a
fresh SQL session against the database; on normal completion the session's
pending rows are committed, on an exception the session is rolled back and the
exception re-raised; in both cases the session is closed.  The body is modelled
as a function from the visible database contents to either the rows it adds to
the session or the exception it raises. -/
def session_scope {ε ρ : Type} (body : List ρ → Except ε (List ρ))
    (db : List ρ) : ScopeResult ε ρ :=
  match body db with
  | .ok pending => ⟨.ok (), db ++ pending, true, false, true⟩
  | .error e => ⟨.error e, db, false, true, true⟩

/-- C10: `session_scope` is atomic.  The session is always closed; when the
body completes normally the pending rows are committed to the database and no
rollback happens; when the body raises, the session is rolled back, the
database is unchanged and the exception is re-raised to the caller. -/
theorem session_scope_atomic {ε ρ : Type} (body : List ρ → Except ε (List ρ))
    (db : List ρ) :
    (session_scope body db).closed = true ∧
      (∀ pending, body db = .ok pending →
        (session_scope body db).committed = true ∧
          (session_scope body db).rolledBack = false ∧
          (session_scope body db).result = .ok () ∧
          (session_scope body db).db = db ++ pending) ∧
      (∀ e, body db = .error e →
        (session_scope body db).result = .error e ∧
          (session_scope body db).committed = false ∧
          (session_scope body db).rolledBack = true ∧
          (session_scope body db).db = db) := by
  cases hb : body db with
  | ok pending =>
    refine ⟨by simp [session_scope, hb], ?_, ?_⟩
    · intro q hq
      cases hq
      exact ⟨by simp [session_scope, hb], by simp [session_scope, hb],
        by simp [session_scope, hb], by simp [session_scope, hb]⟩
    · intro e he
      cases he
  | error e =>
    refine ⟨by simp [session_scope, hb], ?_, ?_⟩
    · intro q hq
      cases hq
    · intro f hf
      cases hf
      exact ⟨by simp [session_scope, hb], by simp [session_scope, hb],
        by simp [session_scope, hb], by simp [session_scope, hb]⟩

/-- Witness for C10: a committing body extends the database, a raising body
leaves it unchanged, and both close the session. -/
theorem session_scope_atomic_witness :
    (session_scope (fun _ : List Nat => (Except.ok [5] : Except Unit (List Nat))) [1]).db = [1, 5] ∧
      (session_scope (fun _ : List Nat => (Except.error () : Except Unit (List Nat))) [1]).db = [1] ∧
      (session_scope (fun _ : List Nat => (Except.error () : Except Unit (List Nat))) [1]).closed = true :=
  ⟨((session_scope_atomic (fun _ => Except.ok [5]) [1]).2.1 [5] rfl).2.2.2,
    ((session_scope_atomic (fun _ => Except.error ()) [1]).2.2 () rfl).2.2.2,
    (session_scope_atomic (fun _ => Except.error ()) [1]).1⟩

/-- Embedded from `cranio/database.py`: the classes `Patient`, `Session` and
`Document` keep class-level `instance_id` globals and table rows; documents
reference a session id and a patient id. -/
structure DBState where
  patients : List String
  sessions : List String
  documents : List (String × String × String)
  patientInstance : Option String
  sessionInstance : Option String
  documentInstance : Option String
  nextId : Nat
deriving DecidableEq, Repr

/-- Database error raised by the init class methods. -/
inductive DBErr where
  | valueError (msg : String)
deriving DecidableEq, Repr

/-- Embedded from `cranio.core.generate_unique_id`: a fresh UUID, modelled by
a counter. -/
def generate_unique_id (g : DBState) : String × DBState :=
  ("uuid-" ++ toString g.nextId, { g with nextId := g.nextId + 1 })

/-- Embedded from `Patient.init`: raises `ValueError` when `instance_id` is
already set; otherwise inserts the patient row and sets `instance_id`. -/
def Patient.init (patient_id : String) (g : DBState) :
    Except DBErr String × DBState :=
  match g.patientInstance with
  | some _ => (.error (.valueError "Patient already initialized"), g)
  | none =>
    (.ok patient_id,
      { g with
        patients := g.patients ++ [patient_id],
        patientInstance := some patient_id })

/-- Embedded from `Session.init`: raises `ValueError` when `instance_id` is
already set; otherwise inserts a session row with a generated id and sets
`instance_id`. -/
def Session.init (g : DBState) : Except DBErr String × DBState :=
  match g.sessionInstance with
  | some _ => (.error (.valueError "Session already initialized"), g)
  | none =>
    let idg := generate_unique_id g
    (.ok idg.1,
      { idg.2 with
        sessions := idg.2.sessions ++ [idg.1],
        sessionInstance := some idg.1 })

/-- Embedded from `Document.init`: raises `ValueError` when `instance_id` is
already set; defaults a missing patient id from `Patient.instance_id`; raises
`ValueError` when `Session.instance_id` is unset or no patient id is
available; otherwise inserts a document row and sets `instance_id`. -/
def Document.init (patient_id : Option String) (g : DBState) :
    Except DBErr String × DBState :=
  match g.documentInstance with
  | some _ => (.error (.valueError "Document already initialized"), g)
  | none =>
    let pid := match patient_id with
      | some p => some p
      | none => g.patientInstance
    match g.sessionInstance with
    | none => (.error (.valueError "Session must be initialized before Document"), g)
    | some sid =>
      match pid with
      | none => (.error (.valueError "Patient must be initialized before Document"), g)
      | some p =>
        let idg := generate_unique_id g
        (.ok idg.1,
          { idg.2 with
            documents := idg.2.documents ++ [(idg.1, sid, p)],
            documentInstance := some idg.1 })

/-- C9: init-once singleton semantics.  Each of `Patient.init`, `Session.init`
and `Document.init` raises `ValueError` and leaves the whole database state
(rows and `instance_id` globals) unchanged when its `instance_id` is already
set; additionally `Document.init` raises `ValueError` against an unchanged
state when `Session.instance_id` is unset, or when no patient id is available
(none passed and none set on `Patient`). -/
theorem singleton_init_semantics :
    (∀ (pid : String) (g : DBState) (x : String), g.patientInstance = some x →
      Patient.init pid g = (.error (.valueError "Patient already initialized"), g)) ∧
      (∀ (g : DBState) (x : String), g.sessionInstance = some x →
        Session.init g = (.error (.valueError "Session already initialized"), g)) ∧
      (∀ (pid : Option String) (g : DBState) (x : String),
        g.documentInstance = some x →
        Document.init pid g = (.error (.valueError "Document already initialized"), g)) ∧
      (∀ (pid : Option String) (g : DBState), g.documentInstance = none →
        g.sessionInstance = none →
        Document.init pid g =
          (.error (.valueError "Session must be initialized before Document"), g)) ∧
      (∀ (g : DBState) (sid : String), g.documentInstance = none →
        g.sessionInstance = some sid → g.patientInstance = none →
        Document.init none g =
          (.error (.valueError "Patient must be initialized before Document"), g)) := by
  refine ⟨?_, ?_, ?_, ?_, ?_⟩
  · intro pid g x hx
    simp [Patient.init, hx]
  · intro g x hx
    simp [Session.init, hx]
  · intro pid g x hx
    simp [Document.init, hx]
  · intro pid g hd hs
    cases pid <;> simp [Document.init, hd, hs]
  · intro g sid hd hs hp
    simp [Document.init, hd, hs, hp]

/-- Witness for C9 on concrete states: a second `Patient.init` after a first
one fails and changes nothing, and `Document.init` without a session fails. -/
theorem singleton_init_semantics_witness :
    Patient.init "p2" ⟨["p1"], [], [], some "p1", none, none, 0⟩ =
      (.error (.valueError "Patient already initialized"),
        ⟨["p1"], [], [], some "p1", none, none, 0⟩) ∧
      Document.init none ⟨["p1"], [], [], some "p1", none, none, 0⟩ =
        (.error (.valueError "Session must be initialized before Document"),
          ⟨["p1"], [], [], some "p1", none, none, 0⟩) :=
  ⟨singleton_init_semantics.1 "p2" ⟨["p1"], [], [], some "p1", none, none, 0⟩ "p1" rfl,
    singleton_init_semantics.2.2.2.1 none ⟨["p1"], [], [], some "p1", none, none, 0⟩ rfl rfl⟩

end Cranio
